import Mathlib

/-!
# Leaf book-recommendation pipeline: a shallow embedding

This file embeds the data model and the algorithms of the Leaf
recommendation backend as specified by the repository's design document
(`backend/BOOK_RECOMMENDATION.md`), whose embedded Python code is the
authoritative description of the pipeline:

* the `books` corpus table and the session library entries
  (`books_from_csv` dicts with `book_id`, `title`, `author`, `user_rating`);
* the CSV ingestion worker `process_csv_task`;
* the retrieval engine `_retrieve_candidates` with its helpers
  `_filter_relevant_books`, `_apply_quality_scoring`,
  `_calculate_quality_score`, `_apply_dislike_penalty`;
* the final selection step of `_generate_with_llm` (parsing of the
  reranker response and rank assignment).

Numeric scores are embedded as exact rationals (`ℚ`).  Embedding vectors
and cosine-similarity computations are external services
(OpenAI embeddings, scipy cosine); they are represented by opaque oracle
functions returning the similarity values the code would compute, so the
theorems hold for every possible behaviour of those services.
-/

/-- A row of the `books` table (global corpus).  Fields not consulted by any
algorithm modelled here (`average_rating`, `cover_url`, `language`,
`publication_year`, `data_source`, timestamps) are omitted.  The embedding
vector is represented by an opaque index into the embedding space
(`none` = the `embedding` column is NULL). -/
structure Book where
  id : ℕ
  isbn : String
  isbn13 : Option String
  title : String
  author : String
  description : Option String
  categories : List String
  page_count : Option ℕ
  publisher : Option String
  ratings_count : Option ℕ
  embedding : Option ℕ
deriving DecidableEq

/-- A `books_from_csv` session entry:
`{"book_id": ..., "title": ..., "author": ..., "user_rating": int | None}`. -/
structure LibEntry where
  book_id : ℕ
  title : String
  author : String
  user_rating : Option ℕ
deriving DecidableEq

/-- A candidate produced by retrieval: a book together with the similarity
score the vector search attached to it, later adjusted in place by the
quality-scoring and dislike-penalty stages (the code mutates
`candidate.similarity` and sets `candidate.quality_score` /
`candidate.dislike_penalty_applied`). -/
structure Candidate where
  book : Book
  similarity : ℚ
  qualityScore : Option ℚ
  penaltyApplied : Bool
deriving DecidableEq

/-- `SIMILARITY_THRESHOLD = 0.3` — relevance filtering threshold. -/
def SIMILARITY_THRESHOLD : ℚ := 0.3

/-- `MIN_RELEVANT_BOOKS = 2` — minimum relevant favorites to use filtering. -/
def MIN_RELEVANT_BOOKS : ℕ := 2

/-- `DISLIKE_PENALTY_CONFIG["min_dislikes"] = 2`. -/
def dislikeMinDislikes : ℕ := 2

/-- `DISLIKE_PENALTY_CONFIG["similarity_threshold"] = 0.6`. -/
def dislikeSimilarityThreshold : ℚ := 0.6

/-- `DISLIKE_PENALTY_CONFIG["penalty_strength"] = 0.3`. -/
def dislikePenaltyStrength : ℚ := 0.3

/-- The rating value the refinement code *intends* by
`b.get('user_rating', 0)`: the entry's rating, with `0` for an absent one.
Note that this is a collapsed reading: `process_csv_task` always stores the
`user_rating` key (with value `None` for an unrated book), so Python's
`dict.get` never actually falls back to the default `0`, and a `None` rating
makes the comparison raise `TypeError` instead — see `pyRatingGe` /
`highlyRatedE` for the faithful semantics.  On every library all of whose
entries carry a rating — the only inputs on which `_retrieve_candidates`
returns at all — the two readings coincide (`highlyRatedE_eq_of_rated`,
`strongDislikesE_eq_of_rated`), so the theorems stated through `ratingD`
describe every run of the program that produces a result. -/
def ratingD (e : LibEntry) : ℕ := e.user_rating.getD 0

/-- `[b for b in user_books if b.get('user_rating', 0) >= 4]`, in the
collapsed rating-default-0 reading of `ratingD`. -/
def highlyRated (userBooks : List LibEntry) : List LibEntry :=
  userBooks.filter (fun b => decide (4 ≤ ratingD b))

/-- `[b for b in user_books if b.get('user_rating', 0) <= 2 and b.get('user_rating', 0) > 0]`,
in the collapsed rating-default-0 reading of `ratingD`. -/
def strongDislikes (userBooks : List LibEntry) : List LibEntry :=
  userBooks.filter (fun b => decide (ratingD b ≤ 2) && decide (0 < ratingD b))

/-- A Python runtime exception raised inside the recommendation request. -/
inductive PyError where
  | typeError
deriving DecidableEq

/-- The comparison `b.get('user_rating', 0) >= k` as Python 3 actually
executes it: `process_csv_task` always stores the `user_rating` key — with
value `None` for an unrated book — so `dict.get` returns that `None` rather
than the default `0`, and `None >= k` raises `TypeError`. -/
def pyRatingGe (e : LibEntry) (k : ℕ) : Except PyError Bool :=
  match e.user_rating with
  | none => .error .typeError
  | some v => .ok (decide (k ≤ v))

/-- `b.get('user_rating', 0) <= k` under the same faithful semantics. -/
def pyRatingLe (e : LibEntry) (k : ℕ) : Except PyError Bool :=
  match e.user_rating with
  | none => .error .typeError
  | some v => .ok (decide (v ≤ k))

/-- `b.get('user_rating', 0) > k` under the same faithful semantics. -/
def pyRatingGt (e : LibEntry) (k : ℕ) : Except PyError Bool :=
  match e.user_rating with
  | none => .error .typeError
  | some v => .ok (decide (k < v))

/-- `highly_rated = [b for b in user_books if b.get('user_rating', 0) >= 4]`
under Python's actual semantics: the comprehension raises `TypeError` at the
first entry whose stored rating is `None`. -/
def highlyRatedE : List LibEntry → Except PyError (List LibEntry)
  | [] => .ok []
  | b :: rest =>
    match pyRatingGe b 4 with
    | .error e => .error e
    | .ok keep =>
      match highlyRatedE rest with
      | .error e => .error e
      | .ok l => .ok (if keep then b :: l else l)

/-- `strong_dislikes = [b for b in user_books if b.get('user_rating', 0) <= 2
and b.get('user_rating', 0) > 0]` under Python's actual semantics, with the
short-circuiting `and`: the first comparison already raises `TypeError` on a
`None` rating. -/
def strongDislikesE : List LibEntry → Except PyError (List LibEntry)
  | [] => .ok []
  | b :: rest =>
    match pyRatingLe b 2 with
    | .error e => .error e
    | .ok false =>
      match strongDislikesE rest with
      | .error e => .error e
      | .ok l => .ok l
    | .ok true =>
      match pyRatingGt b 0 with
      | .error e => .error e
      | .ok keep =>
        match strongDislikesE rest with
        | .error e => .error e
        | .ok l => .ok (if keep then b :: l else l)

/-- `exclude_ids = [b['book_id'] for b in user_books]`. -/
def libraryIds (userBooks : List LibEntry) : List ℕ :=
  userBooks.map (fun b => b.book_id)

/-- Python `int(x)` applied to the nonnegative quantity `top_k * collaborative_weight`:
truncation, i.e. the floor. -/
def pyInt (q : ℚ) : ℕ := (⌊q⌋).toNat

/-- `_filter_relevant_books`: keep the user books whose corpus record has an
embedding whose cosine similarity to the query embedding
(`1 - cosine_distance(query_embedding, book.embedding)`, supplied by the
oracle `qsim` indexed by the embedding) is at least `similarity_threshold`;
the surviving entries are returned in corpus-scan order, each recovered
from `user_books` by `next(b for b in user_books if b['book_id'] == book.id)`. -/
def filterRelevantBooks (corpus : List Book) (qsim : ℕ → ℚ)
    (userBooks : List LibEntry) : List LibEntry :=
  let bookIds := userBooks.map (fun b => b.book_id)
  let books := corpus.filter (fun b => decide (b.id ∈ bookIds))
  books.foldl (fun acc bk =>
    match bk.embedding with
    | none => acc
    | some e =>
      if SIMILARITY_THRESHOLD ≤ qsim e then
        match userBooks.find? (fun u => u.book_id == bk.id) with
        | some u => acc ++ [u]
        | none => acc
      else acc) []

/-- The weight formula of the best tier, `min(0.5, 0.2 + (len(relevant_favorites) - 2) * 0.1)`. -/
def weightRelevantTier (n : ℕ) : ℚ := min 0.5 (0.2 + ((n : ℚ) - 2) * 0.1)

/-- The weight formula of fallback 1, `min(0.3, 0.15 + (len(highly_rated) - 1) * 0.05)`. -/
def weightFavoritesTier (n : ℕ) : ℚ := min 0.3 (0.15 + ((n : ℚ) - 1) * 0.05)

/-- The weight formula of fallback 2, `min(0.2, 0.1 + (len(user_books) - 1) * 0.02)`. -/
def weightAllBooksTier (n : ℕ) : ℚ := min 0.2 (0.1 + ((n : ℚ) - 1) * 0.02)

/-- The collaborative seed set (`book_ids`) and dynamic weight
(`collaborative_weight`) chosen by `_retrieve_candidates`: relevant
favorites if at least `MIN_RELEVANT_BOOKS` survive the semantic filter,
else all highly-rated entries, else all library entries; the weight `0`
with an empty seed set when `user_books` is empty. -/
def collaborativeSeedWeight (corpus : List Book) (qsim : ℕ → ℚ)
    (userBooks : List LibEntry) : List ℕ × ℚ :=
  if userBooks.isEmpty then ([], 0)
  else
    let highly := highlyRated userBooks
    let relevant := filterRelevantBooks corpus qsim highly
    if highly.isEmpty then
      (userBooks.map (fun b => b.book_id), weightAllBooksTier userBooks.length)
    else if MIN_RELEVANT_BOOKS ≤ relevant.length then
      (relevant.map (fun b => b.book_id), weightRelevantTier relevant.length)
    else
      (highly.map (fun b => b.book_id), weightFavoritesTier highly.length)

/-- The dynamic collaborative weight of a request. -/
def collaborativeWeight (corpus : List Book) (qsim : ℕ → ℚ)
    (userBooks : List LibEntry) : ℚ :=
  (collaborativeSeedWeight corpus qsim userBooks).2

/-- `candidates.sort(key=lambda x: getattr(x, 'similarity', 0), reverse=True)`:
stable sort by similarity, descending. -/
def sortBySimDesc (l : List Candidate) : List Candidate :=
  l.mergeSort (fun a b => decide (b.similarity ≤ a.similarity))

/-- Modelled from the spec: the `vector_search.search_similar_books` module is
not part of the repository source (only its call sites are).  Per the spec,
base retrieval is a "vector-similarity search ... for the top-K query-similar
items", "excluding any item already in the user's library", and an item is
"eligible for retrieval only once its embedding is populated".  The oracle
`qsim` gives each populated embedding its similarity to the query embedding. -/
def searchSimilarBooks (corpus : List Book) (qsim : ℕ → ℚ) (limit : ℕ)
    (excludeIds : List ℕ) : List Candidate :=
  sortBySimDesc
    ((corpus.filter
        (fun b => b.embedding.isSome && !(decide (b.id ∈ excludeIds)))).map
      (fun b => { book := b, similarity := (b.embedding.map qsim).getD 0,
                  qualityScore := none, penaltyApplied := false }))
  |>.take limit

/-- Modelled from the spec: `vector_search.search_similar_to_books` is not part
of the repository source.  Per the spec, it retrieves "additional candidates by
vector similarity to the collaborative seed set (deduplicated against
exclusions)".  The oracle `ssim` gives each populated embedding its similarity
to the seed set identified by `bookIds`. -/
def searchSimilarToBooks (corpus : List Book) (ssim : List ℕ → ℕ → ℚ)
    (bookIds : List ℕ) (limit : ℕ) (excludeIds : List ℕ) : List Candidate :=
  sortBySimDesc
    ((corpus.filter
        (fun b => b.embedding.isSome && !(decide (b.id ∈ excludeIds)))).map
      (fun b => { book := b, similarity := (b.embedding.map (ssim bookIds)).getD 0,
                  qualityScore := none, penaltyApplied := false }))
  |>.take limit

/-- `_calculate_quality_score`, description component:
`0.5` for a (truthy) description longer than 100 characters, `0.2` for any
other non-empty description, `0` otherwise. -/
def descriptionQuality (d : Option String) : ℚ :=
  match d with
  | none => 0
  | some s => if 100 < s.length then 0.5 else if s ≠ "" then 0.2 else 0

/-- `_calculate_quality_score`, categories component:
`0.2` for two or more category tags, `0.1` for exactly one, `0` for none. -/
def categoriesQuality (cs : List String) : ℚ :=
  if 2 ≤ cs.length then 0.2 else if cs ≠ [] then 0.1 else 0

/-- `_calculate_quality_score`, ratings-count component:
`0.2` above 100 ratings, `0.1` above 10, `0` otherwise (a zero count is
falsy in the source and scores 0 either way). -/
def ratingsCountQuality (rc : Option ℕ) : ℚ :=
  match rc with
  | none => 0
  | some n => if 100 < n then 0.2 else if 10 < n then 0.1 else 0

/-- `_calculate_quality_score`, page-count component: `0.05` when present
(and truthy, i.e. nonzero). -/
def pageCountQuality (pc : Option ℕ) : ℚ :=
  match pc with
  | none => 0
  | some n => if n ≠ 0 then 0.05 else 0

/-- `_calculate_quality_score`, publisher component: `0.05` when present
(and truthy, i.e. non-empty). -/
def publisherQuality (p : Option String) : ℚ :=
  match p with
  | none => 0
  | some s => if s ≠ "" then 0.05 else 0

/-- `_calculate_quality_score(book)`: the accumulated component sum, capped by
`min(score, 1.0)`. -/
def calculateQualityScore (b : Book) : ℚ :=
  min (descriptionQuality b.description + categoriesQuality b.categories
      + ratingsCountQuality b.ratings_count + pageCountQuality b.page_count
      + publisherQuality b.publisher) 1

/-- `_apply_quality_scoring`: multiply each candidate's similarity by its
quality score, record the quality score, and re-sort descending. -/
def applyQualityScoring (cands : List Candidate) : List Candidate :=
  sortBySimDesc (cands.map (fun c =>
    let q := calculateQualityScore c.book
    { c with similarity := c.similarity * q, qualityScore := some q }))

/-- `max_similarity`: starting from `0`, the maximum cosine similarity
(oracle `esim` on embedding indices) of the candidate embedding `ce` to the
embeddings of the disliked books, books without an embedding skipped. -/
def maxDislikeSim (esim : ℕ → ℕ → ℚ) (dislikedData : List Book) (ce : ℕ) : ℚ :=
  dislikedData.foldl (fun m d =>
    match d.embedding with
    | none => m
    | some de => max m (esim ce de)) 0

/-- The body of the `_apply_dislike_penalty` loop for one candidate: skip
candidates without an embedding; otherwise, when the maximum similarity to a
disliked book reaches `similarity_threshold`, scale the similarity by
`1 - penalty` where
`penalty = ((max_similarity - threshold) / (1 - threshold)) * penalty_strength`,
and record that the penalty was applied. -/
def dislikeStep (esim : ℕ → ℕ → ℚ) (dislikedData : List Book)
    (c : Candidate) : Candidate :=
  match c.book.embedding with
  | none => c
  | some ce =>
    let maxSim := maxDislikeSim esim dislikedData ce
    if dislikeSimilarityThreshold ≤ maxSim then
      let penalty := ((maxSim - dislikeSimilarityThreshold)
          / (1 - dislikeSimilarityThreshold)) * dislikePenaltyStrength
      { c with similarity := c.similarity * (1 - penalty), penaltyApplied := true }
    else c

/-- `disliked_books_data = db.query(Book).filter(Book.id.in_(disliked_book_ids)).all()`. -/
def dislikedBooksData (corpus : List Book) (dislikedBooks : List LibEntry) : List Book :=
  corpus.filter (fun b => decide (b.id ∈ dislikedBooks.map (fun d => d.book_id)))

/-- `_apply_dislike_penalty`: penalize every candidate against the disliked
books' corpus records and re-sort descending. -/
def applyDislikePenalty (corpus : List Book) (esim : ℕ → ℕ → ℚ)
    (dislikedBooks : List LibEntry) (cands : List Candidate) : List Candidate :=
  sortBySimDesc (cands.map (dislikeStep esim (dislikedBooksData corpus dislikedBooks)))

/-- The collaborative part of `_retrieve_candidates`: when the dynamic weight
is positive, `user_similar = vector_search.search_similar_to_books(db,
book_ids, limit=int(top_k * collaborative_weight), exclude_ids)` with the
user's books excluded; otherwise nothing. -/
def retrieveUserSimilar (corpus : List Book) (qsim : ℕ → ℚ)
    (ssim : List ℕ → ℕ → ℚ) (userBooks : List LibEntry) (topK : ℕ) :
    List Candidate :=
  let sw := collaborativeSeedWeight corpus qsim userBooks
  if 0 < sw.2 then
    searchSimilarToBooks corpus ssim sw.1 (pyInt ((topK : ℚ) * sw.2))
      (libraryIds userBooks)
  else []

/-- The exclusion list after the collaborative phase:
`exclude_ids.extend([book.id for book in user_similar])`. -/
def retrieveExclude (corpus : List Book) (qsim : ℕ → ℚ)
    (ssim : List ℕ → ℕ → ℚ) (userBooks : List LibEntry) (topK : ℕ) : List ℕ :=
  libraryIds userBooks
    ++ (retrieveUserSimilar corpus qsim ssim userBooks topK).map (fun c => c.book.id)

/-- The semantic part of `_retrieve_candidates`:
`query_similar = vector_search.search_similar_books(db, embedding,
limit=top_k - len(candidates), exclude_ids)`. -/
def retrieveQuerySimilar (corpus : List Book) (qsim : ℕ → ℚ)
    (ssim : List ℕ → ℕ → ℚ) (userBooks : List LibEntry) (topK : ℕ) :
    List Candidate :=
  searchSimilarBooks corpus qsim
    (topK - (retrieveUserSimilar corpus qsim ssim userBooks topK).length)
    (retrieveExclude corpus qsim ssim userBooks topK)

/-- `_retrieve_candidates`: hybrid retrieval.  Collaborative candidates are
fetched with `limit=int(top_k * collaborative_weight)` when the weight is
positive, then semantic search fills the remaining
`top_k - len(candidates)` slots excluding the user's books and the already
retrieved collaborative candidates; quality scoring always runs, the dislike
penalty only when the user has at least `min_dislikes` strong dislikes; the
result is truncated to `top_k`. -/
def retrieveCandidates (corpus : List Book) (qsim : ℕ → ℚ)
    (ssim : List ℕ → ℕ → ℚ) (esim : ℕ → ℕ → ℚ)
    (userBooks : List LibEntry) (topK : ℕ) : List Candidate :=
  let cands0 := retrieveUserSimilar corpus qsim ssim userBooks topK
    ++ retrieveQuerySimilar corpus qsim ssim userBooks topK
  let cands1 := applyQualityScoring cands0
  let cands2 :=
    if ¬ userBooks.isEmpty ∧ dislikeMinDislikes ≤ (strongDislikes userBooks).length then
      applyDislikePenalty corpus esim (strongDislikes userBooks) cands1
    else cands1
  cands2.take topK

/-! ## Final selection stage (`_generate_with_llm`, response handling) -/

/-- One entry of the JSON array returned by the generative reranker:
`{"book_id": <id>, "confidence_score": <0-100>, "explanation": "..."}`. -/
structure RecItem where
  book_id : ℕ
  confidence_score : ℕ
  explanation : String
deriving DecidableEq

/-- A recommendation dict after `rec["rank"] = i` was set. -/
structure RankedRec where
  item : RecItem
  rank : ℕ
deriving DecidableEq

/-- The parse of `response.choices[0].message.content`:
`json.loads` yields either a JSON list, or a JSON object whose optional
`recommendations` key holds the list (`result.get("recommendations", [])`);
on invalid JSON, `json.loads` raises. -/
inductive LlmResponse where
  | listResult (recs : List RecItem)
  | objResult (recs : Option (List RecItem))
  | unparseable
deriving DecidableEq

/-- A request-level failure of the recommendation flow. -/
inductive SelectionError where
  | parseFailure
deriving DecidableEq

/-- `for i, rec in enumerate(recommendations[:3], 1): rec["rank"] = i` —
rank assignment in returned order, starting from `i`. -/
def assignRanks (i : ℕ) : List RecItem → List RankedRec
  | [] => []
  | r :: rs => { item := r, rank := i } :: assignRanks (i + 1) rs

/-- The response handling of `_generate_with_llm`: parse, extract the list,
set ranks on the first three entries and return `recommendations[:3]`.
An unparseable response propagates the `json.loads` exception (there is no
retry and no validation of the selected items). -/
def generateWithLlm (resp : LlmResponse) : Except SelectionError (List RankedRec) :=
  match resp with
  | .unparseable => .error .parseFailure
  | .listResult recs => .ok (assignRanks 1 (recs.take 3))
  | .objResult o => .ok (assignRanks 1 ((o.getD []).take 3))

/-! ## Ingestion pipeline (`process_csv_task`) -/

/-- One CSV row of a Goodreads export, reduced to the fields the worker
reads: `ISBN`, `ISBN13` (empty string = missing, matching Python
truthiness of `row['ISBN13'] or row['ISBN']`) and `My Rating`
(`0` = unrated, matching the falsiness of an empty rating). -/
structure CsvRow where
  isbn : String
  isbn13 : String
  myRating : ℕ
deriving DecidableEq

/-- `isbn = row['ISBN13'] or row['ISBN']`. -/
def rowIdentifier (r : CsvRow) : String :=
  if r.isbn13 ≠ "" then r.isbn13 else r.isbn

/-- The metadata bundle returned by `fetch_from_google_books` (volumeInfo). -/
structure BookMeta where
  title : String
  authors : List String
  description : Option String
  categories : List String
  pageCount : Option ℕ
  publisher : Option String
  ratingsCount : Option ℕ
  isbn13 : Option String
deriving DecidableEq

/-- `db.query(Book).filter_by(isbn=isbn).first()` — lookup by the primary
identifier only. -/
def lookupByIsbn (corpus : List Book) (isbn : String) : Option Book :=
  corpus.find? (fun b => b.isbn == isbn)

/-- A database error surfaced to the worker. -/
inductive DbError where
  | uniqueViolation
deriving DecidableEq

/-- The `SERIAL` primary key assigned to a newly inserted row. -/
def nextId (corpus : List Book) : ℕ :=
  (corpus.map (fun b => b.id)).foldr max 0 + 1

/-- The `Book(...)` record built from Google Books data in
`process_csv_task` (inserted before its embedding is generated). -/
def mkBook (corpus : List Book) (isbn : String) (g : BookMeta) : Book :=
  { id := nextId corpus
    isbn := isbn
    isbn13 := g.isbn13
    title := g.title
    author := String.intercalate ", " g.authors
    description := g.description
    categories := g.categories
    page_count := g.pageCount
    publisher := g.publisher
    ratings_count := g.ratingsCount
    embedding := none }

/-- `db.add(new_book); db.commit()`: the `isbn UNIQUE NOT NULL` constraint of
the `books` table makes the commit fail with an integrity error when a row
with the same primary identifier is already present (for instance one
committed by a concurrent session after this worker's lookup). -/
def insertBook (corpus : List Book) (b : Book) : Except DbError (List Book) :=
  if corpus.any (fun x => x.isbn == b.isbn) then .error .uniqueViolation
  else .ok (corpus ++ [b])

/-- The library entry appended to `user_books`, with
`int(user_rating) if user_rating else None`. -/
def mkEntry (b : Book) (r : CsvRow) : LibEntry :=
  { book_id := b.id
    title := b.title
    author := b.author
    user_rating := if r.myRating ≠ 0 then some r.myRating else none }

/-- `new_book.embedding = embedding; db.commit()` — populate the embedding of
the row `bid` (the embedding value itself comes from the external embedding
service via the oracle `embed`). -/
def setEmbedding (corpus : List Book) (bid : ℕ) (e : ℕ) : List Book :=
  corpus.map (fun b => if b.id = bid then { b with embedding := some e } else b)

/-- One iteration of the `process_csv_task` row loop.

`lookupC` is the corpus snapshot seen by the `SELECT`, `insertC` the corpus
at commit time; the two coincide in a single-worker run and differ exactly
when a concurrent session commits between this worker's lookup and insert.
Returns the new corpus, the new `user_books`, the new `new_books_added`
counter and whether this iteration wrote the progress metadata (the code
writes it only in the branch that added a new book); an uncaught database
error aborts the task.  `fetchMeta` and `embed` are the external
Google Books and embedding services. -/
def processRowAt (fetchMeta : String → Option BookMeta) (embed : String → ℕ)
    (lookupC insertC : List Book) (userBooks : List LibEntry) (newAdded : ℕ)
    (row : CsvRow) :
    Except DbError (List Book × List LibEntry × ℕ × Bool) :=
  let isbn := rowIdentifier row
  if isbn = "" then .ok (insertC, userBooks, newAdded, false)
  else
    match lookupByIsbn lookupC isbn with
    | some existing => .ok (insertC, userBooks ++ [mkEntry existing row], newAdded, false)
    | none =>
      match fetchMeta isbn with
      | none => .ok (insertC, userBooks, newAdded, false)
      | some g =>
        let newBook := mkBook insertC isbn g
        match insertBook insertC newBook with
        | .error e => .error e
        | .ok corpus1 =>
          let corpus2 := setEmbedding corpus1 newBook.id (embed isbn)
          let entry := mkEntry { newBook with embedding := some (embed isbn) } row
          .ok (corpus2, userBooks ++ [entry], newAdded + 1, true)

/-- A write of the `session:{id}:metadata` key:
`(total_books_in_csv, books_processed, new_books_added)`
= `(len(df), idx + 1, new_books_added)`. -/
abbrev ProgressWrite : Type := ℕ × ℕ × ℕ

/-- The worker state threaded through the row loop: the corpus, the
accumulated `user_books`, the `new_books_added` counter, and the sequence of
progress-metadata writes performed so far. -/
structure TaskState where
  corpus : List Book
  userBooks : List LibEntry
  newAdded : ℕ
  progressLog : List ProgressWrite
deriving DecidableEq

/-- The row loop of `process_csv_task` over the remaining rows, `idx` being
the dataframe index of the next row and `total = len(df)`.  In this
single-worker run the lookup and insert snapshots coincide. -/
def runRows (fetchMeta : String → Option BookMeta) (embed : String → ℕ)
    (total : ℕ) : TaskState → ℕ → List CsvRow → Except DbError TaskState
  | s, _, [] => .ok s
  | s, idx, r :: rest =>
    match processRowAt fetchMeta embed s.corpus s.corpus s.userBooks s.newAdded r with
    | .error e => .error e
    | .ok (c, ub, n, wrote) =>
      runRows fetchMeta embed total
        { corpus := c, userBooks := ub, newAdded := n,
          progressLog := s.progressLog ++ if wrote then [(total, idx + 1, n)] else [] }
        (idx + 1) rest

/-- `process_csv_task`: process every row of the export against the given
corpus, starting from an empty `user_books` list. -/
def processCsvTask (fetchMeta : String → Option BookMeta) (embed : String → ℕ)
    (corpus : List Book) (rows : List CsvRow) : Except DbError TaskState :=
  runRows fetchMeta embed rows.length
    { corpus := corpus, userBooks := [], newAdded := 0, progressLog := [] } 0 rows

/-! ## Helper lemmas -/

lemma descriptionQuality_nonneg (d : Option String) : 0 ≤ descriptionQuality d := by
  cases d <;> simp only [descriptionQuality] <;> first | (split_ifs <;> norm_num) | norm_num

lemma descriptionQuality_le (d : Option String) : descriptionQuality d ≤ 0.5 := by
  cases d <;> simp only [descriptionQuality] <;> first | (split_ifs <;> norm_num) | norm_num

lemma categoriesQuality_nonneg (cs : List String) : 0 ≤ categoriesQuality cs := by
  unfold categoriesQuality
  split_ifs <;> norm_num

lemma categoriesQuality_le (cs : List String) : categoriesQuality cs ≤ 0.2 := by
  unfold categoriesQuality
  split_ifs <;> norm_num

lemma ratingsCountQuality_nonneg (rc : Option ℕ) : 0 ≤ ratingsCountQuality rc := by
  cases rc <;> simp only [ratingsCountQuality] <;> first | (split_ifs <;> norm_num) | norm_num

lemma ratingsCountQuality_le (rc : Option ℕ) : ratingsCountQuality rc ≤ 0.2 := by
  cases rc <;> simp only [ratingsCountQuality] <;> first | (split_ifs <;> norm_num) | norm_num

lemma pageCountQuality_nonneg (pc : Option ℕ) : 0 ≤ pageCountQuality pc := by
  cases pc <;> simp only [pageCountQuality] <;> first | (split_ifs <;> norm_num) | norm_num

lemma pageCountQuality_le (pc : Option ℕ) : pageCountQuality pc ≤ 0.05 := by
  cases pc <;> simp only [pageCountQuality] <;> first | (split_ifs <;> norm_num) | norm_num

lemma publisherQuality_nonneg (p : Option String) : 0 ≤ publisherQuality p := by
  cases p <;> simp only [publisherQuality] <;> first | (split_ifs <;> norm_num) | norm_num

lemma publisherQuality_le (p : Option String) : publisherQuality p ≤ 0.05 := by
  cases p <;> simp only [publisherQuality] <;> first | (split_ifs <;> norm_num) | norm_num

/-! ## C6 — metadata quality score -/

/-- C6: for every book, the metadata quality score computed by the
quality-rerank stage lies in [0,1], and it is the (capped) sum of the
weighted components for description length, category-tag count, global
rating count, and presence of page-count and publisher metadata. -/
theorem c6_quality_score_in_unit_interval (b : Book) :
    0 ≤ calculateQualityScore b ∧ calculateQualityScore b ≤ 1 ∧
    calculateQualityScore b =
      min (descriptionQuality b.description + categoriesQuality b.categories
        + ratingsCountQuality b.ratings_count + pageCountQuality b.page_count
        + publisherQuality b.publisher) 1 := by
  refine ⟨?_, min_le_right _ _, rfl⟩
  have h1 := descriptionQuality_nonneg b.description
  have h2 := categoriesQuality_nonneg b.categories
  have h3 := ratingsCountQuality_nonneg b.ratings_count
  have h4 := pageCountQuality_nonneg b.page_count
  have h5 := publisherQuality_nonneg b.publisher
  unfold calculateQualityScore
  have : (0:ℚ) ≤ descriptionQuality b.description + categoriesQuality b.categories
      + ratingsCountQuality b.ratings_count + pageCountQuality b.page_count
      + publisherQuality b.publisher := by linarith
  exact le_min this (by norm_num)

/-! ## C1 — final selection -/

lemma assignRanks_length (i : ℕ) (l : List RecItem) :
    (assignRanks i l).length = l.length := by
  induction l generalizing i with
  | nil => rfl
  | cons r rs ih => simp [assignRanks, ih]

lemma assignRanks_map_rank (i : ℕ) (l : List RecItem) :
    (assignRanks i l).map (fun r => r.rank) = List.range' i l.length := by
  induction l generalizing i with
  | nil => rfl
  | cons r rs ih => simp [assignRanks, ih, List.range']

lemma assignRanks_map_item (i : ℕ) (l : List RecItem) :
    (assignRanks i l).map (fun r => r.item) = l := by
  induction l generalizing i with
  | nil => rfl
  | cons r rs ih => simp [assignRanks, ih]

/-- C1 (amended): the final selection stage returns the first up-to-3 parsed
entries of the reranker response with ranks 1, 2, ... assigned in returned
order — so it succeeds with `min 3 n` items when the parsed list has `n`
entries, performing no retry and no validation of distinctness or
candidate-set membership — and an unparseable response surfaces the parse
error directly, again without a retry. -/
theorem c1_selection_truncates_without_validation :
    (∀ recs : List RecItem,
        generateWithLlm (.listResult recs) = .ok (assignRanks 1 (recs.take 3))) ∧
    (∀ o : Option (List RecItem),
        generateWithLlm (.objResult o) = .ok (assignRanks 1 ((o.getD []).take 3))) ∧
    (∀ recs : List RecItem,
        (assignRanks 1 (recs.take 3)).length = min 3 recs.length) ∧
    (∀ recs : List RecItem,
        (assignRanks 1 (recs.take 3)).map (fun r => r.rank)
          = List.range' 1 (min 3 recs.length)) ∧
    (∀ recs : List RecItem,
        (assignRanks 1 (recs.take 3)).map (fun r => r.item) = recs.take 3) ∧
    generateWithLlm .unparseable = .error .parseFailure := by
  refine ⟨fun _ => rfl, fun _ => rfl, ?_, ?_, ?_, rfl⟩
  · intro recs
    rw [assignRanks_length, List.length_take]
  · intro recs
    rw [assignRanks_map_rank, List.length_take]
  · intro recs
    exact assignRanks_map_item 1 (recs.take 3)

/-- C1 counterexample: on a parseable response selecting only two items, the
stage succeeds with two recommendations — the claimed "exactly 3 distinct
recommendations on success, retrying once otherwise" behaviour does not hold:
there is no validation, no retry, and success with fewer than 3 items. -/
theorem c1_counterexample :
    generateWithLlm (LlmResponse.listResult
        [{ book_id := 305, confidence_score := 93, explanation := "fits the query" },
         { book_id := 401, confidence_score := 89, explanation := "also fits" }])
      = .ok
        [{ item := { book_id := 305, confidence_score := 93, explanation := "fits the query" }, rank := 1 },
         { item := { book_id := 401, confidence_score := 89, explanation := "also fits" }, rank := 2 }] ∧
    ([{ item := { book_id := 305, confidence_score := 93, explanation := "fits the query" }, rank := 1 },
      { item := { book_id := 401, confidence_score := 89, explanation := "also fits" }, rank := 2 }] : List RankedRec).length < 3 := by
  exact ⟨rfl, by decide⟩

/-! ## C4 — dynamic collaborative weight -/

lemma weightRelevantTier_mono {n m : ℕ} (h : n ≤ m) :
    weightRelevantTier n ≤ weightRelevantTier m := by
  unfold weightRelevantTier
  refine min_le_min (le_refl _) ?_
  have : (n : ℚ) ≤ (m : ℚ) := by exact_mod_cast h
  nlinarith

lemma weightFavoritesTier_mono {n m : ℕ} (h : n ≤ m) :
    weightFavoritesTier n ≤ weightFavoritesTier m := by
  unfold weightFavoritesTier
  refine min_le_min (le_refl _) ?_
  have : (n : ℚ) ≤ (m : ℚ) := by exact_mod_cast h
  nlinarith

lemma weightAllBooksTier_mono {n m : ℕ} (h : n ≤ m) :
    weightAllBooksTier n ≤ weightAllBooksTier m := by
  unfold weightAllBooksTier
  refine min_le_min (le_refl _) ?_
  have : (n : ℚ) ≤ (m : ℚ) := by exact_mod_cast h
  nlinarith

/-- C4: the dynamic collaborative weight is 0 whenever the user's library is
empty, and within each single fallback tier (relevant favorites, all
high-rated entries, all library entries) the tier's weight formula is a
non-decreasing function of the seed-set size, bounded by the tier caps
0.5, 0.3 and 0.2 and reaching them once the seed set is large enough
(5, 4 and 6 seeds respectively). -/
theorem c4_dynamic_weight_monotone_saturating :
    (∀ (corpus : List Book) (qsim : ℕ → ℚ),
        collaborativeWeight corpus qsim [] = 0) ∧
    (∀ n m : ℕ, n ≤ m → weightRelevantTier n ≤ weightRelevantTier m) ∧
    (∀ n m : ℕ, n ≤ m → weightFavoritesTier n ≤ weightFavoritesTier m) ∧
    (∀ n m : ℕ, n ≤ m → weightAllBooksTier n ≤ weightAllBooksTier m) ∧
    (∀ n : ℕ, weightRelevantTier n ≤ 0.5) ∧
    (∀ n : ℕ, weightFavoritesTier n ≤ 0.3) ∧
    (∀ n : ℕ, weightAllBooksTier n ≤ 0.2) ∧
    (∀ n : ℕ, 5 ≤ n → weightRelevantTier n = 0.5) ∧
    (∀ n : ℕ, 4 ≤ n → weightFavoritesTier n = 0.3) ∧
    (∀ n : ℕ, 6 ≤ n → weightAllBooksTier n = 0.2) := by
  refine ⟨fun _ _ => rfl,
    fun n m h => weightRelevantTier_mono h,
    fun n m h => weightFavoritesTier_mono h,
    fun n m h => weightAllBooksTier_mono h,
    fun n => min_le_left _ _, fun n => min_le_left _ _, fun n => min_le_left _ _,
    ?_, ?_, ?_⟩
  · intro n h
    have : (5 : ℚ) ≤ (n : ℚ) := by exact_mod_cast h
    unfold weightRelevantTier
    rw [min_eq_left (by nlinarith)]
  · intro n h
    have : (4 : ℚ) ≤ (n : ℚ) := by exact_mod_cast h
    unfold weightFavoritesTier
    rw [min_eq_left (by nlinarith)]
  · intro n h
    have : (6 : ℚ) ≤ (n : ℚ) := by exact_mod_cast h
    unfold weightAllBooksTier
    rw [min_eq_left (by nlinarith)]

/-- C4 witness: the weight statement instantiated at concrete seed counts. -/
theorem c4_witness :
    collaborativeWeight [] (fun _ => 0) [] = 0 ∧
    weightRelevantTier 2 ≤ weightRelevantTier 4 ∧
    weightFavoritesTier 1 ≤ weightFavoritesTier 3 ∧
    weightAllBooksTier 3 ≤ weightAllBooksTier 8 ∧
    weightRelevantTier 9 = 0.5 ∧
    weightFavoritesTier 4 = 0.3 ∧
    weightAllBooksTier 10 = 0.2 :=
  ⟨c4_dynamic_weight_monotone_saturating.1 [] (fun _ => 0),
   c4_dynamic_weight_monotone_saturating.2.1 2 4 (by decide),
   c4_dynamic_weight_monotone_saturating.2.2.1 1 3 (by decide),
   c4_dynamic_weight_monotone_saturating.2.2.2.1 3 8 (by decide),
   c4_dynamic_weight_monotone_saturating.2.2.2.2.2.2.2.1 9 (by decide),
   c4_dynamic_weight_monotone_saturating.2.2.2.2.2.2.2.2.1 4 (by decide),
   c4_dynamic_weight_monotone_saturating.2.2.2.2.2.2.2.2.2 10 (by decide)⟩

/-! ## C10 — entries with an absent rating -/

lemma highlyRatedE_eq_of_rated :
    ∀ ub : List LibEntry, (∀ e ∈ ub, e.user_rating ≠ none) →
      highlyRatedE ub = .ok (highlyRated ub) := by
  intro ub
  induction ub with
  | nil =>
    intro _
    simp [highlyRatedE, highlyRated]
  | cons b rest ih =>
    intro h
    cases hb : b.user_rating with
    | none => exact absurd hb (h b (List.mem_cons_self b rest))
    | some v =>
      have hrest := ih (fun e he => h e (List.mem_cons_of_mem b he))
      simp [highlyRatedE, pyRatingGe, hb, hrest, highlyRated, List.filter_cons,
        ratingD]

lemma strongDislikesE_eq_of_rated :
    ∀ ub : List LibEntry, (∀ e ∈ ub, e.user_rating ≠ none) →
      strongDislikesE ub = .ok (strongDislikes ub) := by
  intro ub
  induction ub with
  | nil =>
    intro _
    simp [strongDislikesE, strongDislikes]
  | cons b rest ih =>
    intro h
    cases hb : b.user_rating with
    | none => exact absurd hb (h b (List.mem_cons_self b rest))
    | some v =>
      have hrest := ih (fun e he => h e (List.mem_cons_of_mem b he))
      by_cases hv : v ≤ 2 <;> by_cases hv0 : 0 < v <;>
        simp [strongDislikesE, pyRatingLe, pyRatingGt, hb, hv, hv0, hrest,
          strongDislikes, List.filter_cons, ratingD]

/-- C10 (code bug): the claim — and the code's own intent, witnessed by the
explicit default in `b.get('user_rating', 0)` and the document's checklist
item "Handle missing ratings gracefully (user_rating = None)" — is that an
absent rating is treated as rated 0.  But `process_csv_task` always stores
the `user_rating` *key*, with value `None` for an unrated book, so `dict.get`
returns `None` rather than the default and the comparison `None >= 4` in the
`highly_rated` comprehension raises `TypeError` (likewise the
`strong_dislikes` comprehension): any library containing an unrated entry
crashes the refinement pipeline instead of treating the entry as rated 0. -/
theorem c10_unrated_rating_raises :
    (∀ ub : List LibEntry, (∃ e ∈ ub, e.user_rating = none) →
      highlyRatedE ub = .error PyError.typeError ∧
      strongDislikesE ub = .error PyError.typeError) ∧
    highlyRatedE [{ book_id := 7, title := "t", author := "a", user_rating := none }]
      = .error PyError.typeError ∧
    strongDislikesE [{ book_id := 7, title := "t", author := "a", user_rating := none }]
      = .error PyError.typeError := by
  refine ⟨?_, rfl, rfl⟩
  intro ub
  induction ub with
  | nil =>
    rintro ⟨e, he, _⟩
    exact absurd he (List.not_mem_nil e)
  | cons b rest ih =>
    rintro ⟨e, he, hre⟩
    cases hb : b.user_rating with
    | none =>
      constructor
      · simp [highlyRatedE, pyRatingGe, hb]
      · simp [strongDislikesE, pyRatingLe, hb]
    | some v =>
      have hmem : e ∈ rest := by
        rcases List.mem_cons.mp he with rfl | hm
        · rw [hb] at hre
          exact absurd hre (by simp)
        · exact hm
      obtain ⟨ih1, ih2⟩ := ih ⟨e, hmem, hre⟩
      constructor
      · simp [highlyRatedE, pyRatingGe, hb, ih1]
      · by_cases hv : v ≤ 2 <;> by_cases hv0 : 0 < v <;>
          simp [strongDislikesE, pyRatingLe, pyRatingGt, hb, hv, hv0, ih2]

/-- C10 witness: the TypeError path applied to a concrete two-entry library
whose second entry is unrated. -/
theorem c10_witness :
    highlyRatedE
        [{ book_id := 8, title := "t", author := "a", user_rating := some 5 },
         { book_id := 9, title := "t", author := "a", user_rating := none }]
      = .error PyError.typeError ∧
    strongDislikesE
        [{ book_id := 8, title := "t", author := "a", user_rating := some 5 },
         { book_id := 9, title := "t", author := "a", user_rating := none }]
      = .error PyError.typeError :=
  c10_unrated_rating_raises.1
    [{ book_id := 8, title := "t", author := "a", user_rating := some 5 },
     { book_id := 9, title := "t", author := "a", user_rating := none }]
    ⟨{ book_id := 9, title := "t", author := "a", user_rating := none },
     List.mem_cons_of_mem _ (List.mem_singleton.mpr rfl), rfl⟩

/-! ## C3 — dislike penalty -/

lemma foldl_max_le {esim : ℕ → ℕ → ℚ} {dd : List Book} {ce : ℕ}
    (hsim : ∀ x y, esim x y ≤ 1) :
    ∀ m : ℚ, m ≤ 1 →
      dd.foldl (fun m d =>
        match d.embedding with
        | none => m
        | some de => max m (esim ce de)) m ≤ 1 := by
  induction dd with
  | nil => intro m hm; exact hm
  | cons d rest ih =>
    intro m hm
    cases hde : d.embedding with
    | none => simpa [hde] using ih m hm
    | some de =>
      simp only [List.foldl_cons, hde]
      exact ih _ (max_le hm (hsim ce de))

lemma maxDislikeSim_le_one {esim : ℕ → ℕ → ℚ} {dd : List Book} {ce : ℕ}
    (hsim : ∀ x y, esim x y ≤ 1) : maxDislikeSim esim dd ce ≤ 1 :=
  foldl_max_le hsim 0 (by norm_num)

/-- C3 (amended): the per-candidate adjustment of the dislike-penalty stage
(of which `_apply_dislike_penalty` is exactly the map followed by the
descending re-sort) never increases a nonnegative similarity `s` and never
reduces it below `s * (1 - penalty_strength)` with `penalty_strength = 0.3`
(cosine similarities being at most 1); and whenever the candidate's maximum
similarity to the disliked books is *strictly above* the activation
threshold 0.6 and `s` is positive, the adjusted similarity is strictly less
than `s`.  (At a maximum similarity exactly equal to the threshold the
penalty factor is 0 and the similarity is unchanged, see the
counterexample.) -/
theorem c3_dislike_penalty_bounds (esim : ℕ → ℕ → ℚ) (dd : List Book)
    (c : Candidate) (hs : 0 ≤ c.similarity) (hsim : ∀ x y, esim x y ≤ 1) :
    (dislikeStep esim dd c).similarity ≤ c.similarity ∧
    c.similarity * (1 - dislikePenaltyStrength) ≤ (dislikeStep esim dd c).similarity ∧
    (∀ ce, c.book.embedding = some ce →
      dislikeSimilarityThreshold < maxDislikeSim esim dd ce →
      0 < c.similarity →
      (dislikeStep esim dd c).similarity < c.similarity) ∧
    (∀ (corpus : List Book) (dislikedBooks : List LibEntry) (cands : List Candidate),
      applyDislikePenalty corpus esim dislikedBooks cands =
        sortBySimDesc (cands.map (dislikeStep esim (dislikedBooksData corpus dislikedBooks)))) := by
  have hstage : ∀ (corpus : List Book) (dislikedBooks : List LibEntry)
      (cands : List Candidate),
      applyDislikePenalty corpus esim dislikedBooks cands =
        sortBySimDesc (cands.map (dislikeStep esim (dislikedBooksData corpus dislikedBooks))) :=
    fun _ _ _ => rfl
  cases hce : c.book.embedding with
  | none =>
    have hstep : dislikeStep esim dd c = c := by
      unfold dislikeStep
      rw [hce]
    refine ⟨by rw [hstep], ?_, ?_, hstage⟩
    · rw [hstep]
      unfold dislikePenaltyStrength
      nlinarith
    · intro ce h
      exact Option.noConfusion h
  | some ce =>
    have hM1 : maxDislikeSim esim dd ce ≤ 1 := maxDislikeSim_le_one hsim
    set M := maxDislikeSim esim dd ce with hMdef
    have key : dislikeStep esim dd c =
        if dislikeSimilarityThreshold ≤ M then
          { c with
            similarity := c.similarity * (1 - ((M - dislikeSimilarityThreshold) / (1 - dislikeSimilarityThreshold)) * dislikePenaltyStrength),
            penaltyApplied := true }
        else c := by
      unfold dislikeStep
      rw [hce]
    by_cases hth : dislikeSimilarityThreshold ≤ M
    · rw [key, if_pos hth]
      have hth6 : (0.6 : ℚ) ≤ M := hth
      have hpen0 : 0 ≤ ((M - dislikeSimilarityThreshold)
          / (1 - dislikeSimilarityThreshold)) * dislikePenaltyStrength := by
        unfold dislikeSimilarityThreshold dislikePenaltyStrength
        unfold dislikeSimilarityThreshold at hth6
        have : (0:ℚ) ≤ M - 0.6 := by linarith
        positivity
      have hpen1 : ((M - dislikeSimilarityThreshold)
          / (1 - dislikeSimilarityThreshold)) * dislikePenaltyStrength
            ≤ dislikePenaltyStrength := by
        unfold dislikeSimilarityThreshold dislikePenaltyStrength
        rw [div_mul_eq_mul_div, div_le_iff₀ (by norm_num : (0:ℚ) < 1 - 0.6)]
        nlinarith
      refine ⟨by simp only; nlinarith, ?_, ?_, hstage⟩
      · simp only
        unfold dislikePenaltyStrength at hpen1 ⊢
        nlinarith
      · intro ce' hce' hgt hspos
        injection hce' with hce'
        subst hce'
        rw [← hMdef] at hgt
        have hpenpos : 0 < ((M - dislikeSimilarityThreshold)
            / (1 - dislikeSimilarityThreshold)) * dislikePenaltyStrength := by
          unfold dislikeSimilarityThreshold dislikePenaltyStrength
          unfold dislikeSimilarityThreshold at hgt
          have : (0:ℚ) < M - 0.6 := by linarith
          positivity
        simp only
        nlinarith
    · rw [key, if_neg hth]
      refine ⟨le_refl _, ?_, ?_, hstage⟩
      · unfold dislikePenaltyStrength
        nlinarith
      · intro ce' hce' hgt hspos
        injection hce' with hce'
        subst hce'
        rw [← hMdef] at hgt
        exact absurd (le_of_lt hgt) hth

/-- C3 counterexample: when the maximum similarity to a disliked book is
exactly the activation threshold 0.6, the source condition
`max_similarity >= threshold` fires but the computed penalty is 0, so the
adjusted similarity equals the raw similarity — refuting the claim that it
is strictly smaller whenever the maximum similarity is at least 0.6. -/
theorem c3_counterexample :
    maxDislikeSim (fun _ _ => 0.6)
        [{ id := 9, isbn := "d", isbn13 := none, title := "d", author := "d",
           description := none, categories := [], page_count := none,
           publisher := none, ratings_count := none, embedding := some 1 }] 0
      = dislikeSimilarityThreshold ∧
    (dislikeStep (fun _ _ => 0.6)
        [{ id := 9, isbn := "d", isbn13 := none, title := "d", author := "d",
           description := none, categories := [], page_count := none,
           publisher := none, ratings_count := none, embedding := some 1 }]
        { book := { id := 1, isbn := "c", isbn13 := none, title := "c", author := "c",
                    description := none, categories := [], page_count := none,
                    publisher := none, ratings_count := none, embedding := some 0 },
          similarity := 0.8, qualityScore := none, penaltyApplied := false }).similarity
      = 0.8 := by
  constructor
  · show max 0 0.6 = dislikeSimilarityThreshold
    unfold dislikeSimilarityThreshold
    norm_num
  · show ((if dislikeSimilarityThreshold ≤ max 0 0.6 then _ else _ : Candidate)).similarity = 0.8
    rw [if_pos (by unfold dislikeSimilarityThreshold; norm_num)]
    unfold dislikeSimilarityThreshold dislikePenaltyStrength maxDislikeSim
    simp only [List.foldl_cons, List.foldl_nil]
    rw [max_eq_right (by norm_num : (0:ℚ) ≤ 0.6)]
    norm_num

/-- C3 witness: the amended bounds applied to a candidate with similarity 0.8
whose maximum similarity to the single disliked book is 1. -/
theorem c3_witness :
    (dislikeStep (fun _ _ => 1)
        [{ id := 9, isbn := "d", isbn13 := none, title := "d", author := "d",
           description := none, categories := [], page_count := none,
           publisher := none, ratings_count := none, embedding := some 1 }]
        { book := { id := 1, isbn := "c", isbn13 := none, title := "c", author := "c",
                    description := none, categories := [], page_count := none,
                    publisher := none, ratings_count := none, embedding := some 0 },
          similarity := 0.8, qualityScore := none, penaltyApplied := false }).similarity
      ≤ 0.8 ∧
    (0.8 : ℚ) * (1 - dislikePenaltyStrength)
      ≤ (dislikeStep (fun _ _ => 1)
        [{ id := 9, isbn := "d", isbn13 := none, title := "d", author := "d",
           description := none, categories := [], page_count := none,
           publisher := none, ratings_count := none, embedding := some 1 }]
        { book := { id := 1, isbn := "c", isbn13 := none, title := "c", author := "c",
                    description := none, categories := [], page_count := none,
                    publisher := none, ratings_count := none, embedding := some 0 },
          similarity := 0.8, qualityScore := none, penaltyApplied := false }).similarity :=
  ⟨(c3_dislike_penalty_bounds (fun _ _ => 1) _ _ (by norm_num) (fun _ _ => le_refl 1)).1,
   (c3_dislike_penalty_bounds (fun _ _ => 1) _ _ (by norm_num) (fun _ _ => le_refl 1)).2.1⟩

/-! ## C7 — duplicate identifiers during ingestion -/

/-- C7 (amended): processing a row whose primary identifier is already in the
corpus at lookup time is a no-op on the corpus — no insert, no error — and
appends a library entry built from the existing record; but a record with the
same identifier committed *between* the lookup and the insert (a concurrent
duplicate) makes the insert surface the uniqueness violation of the
`isbn UNIQUE` constraint: the loop has no handler that reads back the
winner's record. -/
theorem c7_duplicate_insert_behaviour (fetch : String → Option BookMeta)
    (embed : String → ℕ) :
    (∀ (c insertC : List Book) (ub : List LibEntry) (n : ℕ) (r : CsvRow) (b : Book),
      rowIdentifier r ≠ "" →
      lookupByIsbn c (rowIdentifier r) = some b →
      processRowAt fetch embed c insertC ub n r
        = .ok (insertC, ub ++ [mkEntry b r], n, false)) ∧
    (∀ (c c2 : List Book) (ub : List LibEntry) (n : ℕ) (r : CsvRow) (g : BookMeta),
      rowIdentifier r ≠ "" →
      lookupByIsbn c (rowIdentifier r) = none →
      fetch (rowIdentifier r) = some g →
      c2.any (fun x => x.isbn == rowIdentifier r) = true →
      processRowAt fetch embed c c2 ub n r = .error .uniqueViolation) := by
  constructor
  · intro c insertC ub n r b hid hlook
    unfold processRowAt
    rw [if_neg hid, hlook]
  · intro c c2 ub n r g hid hlook hfetch hany
    have hins : insertBook c2 (mkBook c2 (rowIdentifier r) g) = .error .uniqueViolation := by
      unfold insertBook
      rw [if_pos]
      exact hany
    unfold processRowAt
    rw [if_neg hid, hlook, hfetch]
    dsimp only
    rw [hins]

/-- The concrete corpus record used in the C7 scenario (the race winner's
committed row). -/
def lbBook : Book :=
  { id := 1, isbn := "9781473646803", isbn13 := none, title := "Light Bringer",
    author := "Pierce Brown", description := none, categories := [],
    page_count := none, publisher := none, ratings_count := none,
    embedding := some 0 }

/-- The concrete CSV row used in the C7 scenario. -/
def lbRow : CsvRow :=
  { isbn := "1473646804", isbn13 := "9781473646803", myRating := 5 }

/-- The concrete Google Books response used in the C7 scenario. -/
def lbMeta : BookMeta :=
  { title := "Light Bringer", authors := ["Pierce Brown"], description := none,
    categories := [], pageCount := none, publisher := none,
    ratingsCount := none, isbn13 := none }

/-- C7 counterexample: the claim also asserts that a concurrent duplicate
insert is resolved by reading back the winner's record.  With an empty corpus
at lookup time and the winner's record (same ISBN) present at commit time,
the row processing surfaces the uniqueness violation instead of appending a
library entry for the winner's record. -/
theorem c7_counterexample :
    processRowAt (fun _ => some lbMeta) (fun _ => 0) [] [lbBook] [] 0 lbRow
      = .error DbError.uniqueViolation := by
  rfl

/-- C7 witness: both conjuncts of the amended statement instantiated — the
sequential duplicate no-op with its appended entry, and the
concurrent-duplicate error. -/
theorem c7_witness :
    processRowAt (fun _ => none) (fun _ => 0) [lbBook] [lbBook] [] 0 lbRow
      = .ok ([lbBook], [] ++ [mkEntry lbBook lbRow], 0, false) ∧
    processRowAt (fun _ => some lbMeta) (fun _ => 0) [] [lbBook] [] 0 lbRow
      = .error DbError.uniqueViolation :=
  ⟨(c7_duplicate_insert_behaviour (fun _ => none) (fun _ => 0)).1
      [lbBook] [lbBook] [] 0 lbRow lbBook (by decide) (by rfl),
   (c7_duplicate_insert_behaviour (fun _ => some lbMeta) (fun _ => 0)).2
      [] [lbBook] [] 0 lbRow lbMeta (by decide) (by rfl) (by rfl) (by rfl)⟩

/-! ## C9 — progress persistence cadence -/

lemma length_setEmbedding (c : List Book) (bid e : ℕ) :
    (setEmbedding c bid e).length = c.length := by
  unfold setEmbedding
  rw [List.length_map]

lemma lookupByIsbn_none_any_false {c : List Book} {i : String}
    (h : lookupByIsbn c i = none) :
    (c.any fun x => x.isbn == i) = false := by
  unfold lookupByIsbn at h
  rw [List.any_eq_false]
  exact List.find?_eq_none.mp h

/-- C9 (amended): the worker persists the progress counters exactly on the
rows that add a new book to the corpus — writing
`(len(df), idx + 1, new_books_added)` to the metadata key — and performs no
write on skipped or matched rows; there is no every-N-rows persistence. -/
theorem c9_progress_persisted_per_new_book (fetch : String → Option BookMeta)
    (embed : String → ℕ) :
    (∀ (s : TaskState) (idx total : ℕ) (r : CsvRow) (rest : List CsvRow)
        (c2 : List Book) (ub2 : List LibEntry) (n2 : ℕ) (wrote : Bool),
      processRowAt fetch embed s.corpus s.corpus s.userBooks s.newAdded r
          = .ok (c2, ub2, n2, wrote) →
      runRows fetch embed total s idx (r :: rest)
        = runRows fetch embed total
            { corpus := c2, userBooks := ub2, newAdded := n2,
              progressLog := s.progressLog
                ++ if wrote then [(total, idx + 1, n2)] else [] }
            (idx + 1) rest) ∧
    (∀ (c : List Book) (ub : List LibEntry) (n : ℕ) (r : CsvRow)
        (c2 : List Book) (ub2 : List LibEntry) (n2 : ℕ) (wrote : Bool),
      processRowAt fetch embed c c ub n r = .ok (c2, ub2, n2, wrote) →
      (wrote = true ↔ n2 = n + 1 ∧ c2.length = c.length + 1) ∧
      (wrote = false → c2 = c ∧ n2 = n)) := by
  constructor
  · intro s idx total r rest c2 ub2 n2 wrote h
    conv_lhs => rw [runRows]
    rw [h]
  · intro c ub n r c2 ub2 n2 wrote h
    unfold processRowAt at h
    by_cases hid : rowIdentifier r = ""
    · rw [if_pos hid] at h
      simp only [Except.ok.injEq, Prod.mk.injEq] at h
      obtain ⟨rfl, rfl, rfl, rfl⟩ := h
      simp
    · rw [if_neg hid] at h
      cases hlook : lookupByIsbn c (rowIdentifier r) with
      | some b =>
        rw [hlook] at h
        simp only [Except.ok.injEq, Prod.mk.injEq] at h
        obtain ⟨rfl, rfl, rfl, rfl⟩ := h
        simp
      | none =>
        rw [hlook] at h
        cases hfetch : fetch (rowIdentifier r) with
        | none =>
          rw [hfetch] at h
          simp only [Except.ok.injEq, Prod.mk.injEq] at h
          obtain ⟨rfl, rfl, rfl, rfl⟩ := h
          simp
        | some g =>
          rw [hfetch] at h
          have hany := lookupByIsbn_none_any_false hlook
          have hins : insertBook c (mkBook c (rowIdentifier r) g)
              = .ok (c ++ [mkBook c (rowIdentifier r) g]) := by
            unfold insertBook
            dsimp only [mkBook]
            rw [hany]
            rfl
          dsimp only at h
          rw [hins] at h
          simp only [Except.ok.injEq, Prod.mk.injEq] at h
          obtain ⟨rfl, rfl, rfl, rfl⟩ := h
          constructor
          · constructor
            · intro _
              refine ⟨rfl, ?_⟩
              rw [length_setEmbedding, List.length_append]
              rfl
            · intro _
              rfl
          · intro hfalse
            exact absurd hfalse (by simp)

/-- A 12-book corpus for the C9 scenario. -/
def c9Corpus : List Book :=
  (List.range 12).map (fun i =>
    { id := i, isbn := toString i, isbn13 := none, title := "t", author := "a",
      description := none, categories := [], page_count := none,
      publisher := none, ratings_count := none, embedding := some i })

/-- A 12-row export whose every row matches an existing corpus book. -/
def c9Rows : List CsvRow :=
  (List.range 12).map (fun i => { isbn := toString i, isbn13 := "", myRating := 3 })

/-- C9 counterexample: a 12-row ingestion in which every row matches an
existing corpus book performs no progress persistence at all — although more
than 10 rows were processed — because the code only writes the progress
metadata in the branch that adds a new book; so progress is not persisted
"after every 10 processed rows". -/
theorem c9_counterexample :
    (processCsvTask (fun _ => none) (fun _ => 0) c9Corpus c9Rows).map
        (fun s => (s.progressLog, s.newAdded)) = .ok ([], 0) ∧
    c9Rows.length = 12 := by
  constructor
  · rfl
  · rfl

/-- C9 witness: the amended per-row characterisation applied to a matched row
(no write) of a one-book corpus. -/
theorem c9_witness :
    runRows (fun _ => none) (fun _ => 0) 1
        { corpus := [lbBook], userBooks := [], newAdded := 0, progressLog := [] } 0 [lbRow]
      = runRows (fun _ => none) (fun _ => 0) 1
          { corpus := [lbBook], userBooks := [] ++ [mkEntry lbBook lbRow], newAdded := 0,
            progressLog := [] ++ if false then [(1, 0 + 1, 0)] else [] }
          (0 + 1) [] ∧
    (false = true ↔ 0 = 0 + 1 ∧ [lbBook].length = [lbBook].length + 1) ∧
    (false = false → [lbBook] = [lbBook] ∧ 0 = 0) :=
  ⟨(c9_progress_persisted_per_new_book (fun _ => none) (fun _ => 0)).1
      { corpus := [lbBook], userBooks := [], newAdded := 0, progressLog := [] }
      0 1 lbRow [] [lbBook] ([] ++ [mkEntry lbBook lbRow]) 0 false (by rfl),
   (c9_progress_persisted_per_new_book (fun _ => none) (fun _ => 0)).2
      [lbBook] [] 0 lbRow [lbBook] ([] ++ [mkEntry lbBook lbRow]) 0 false (by rfl)⟩

/-! ## C8 — rows without an identifier -/

lemma processRowAt_same_ok (fetch : String → Option BookMeta) (embed : String → ℕ)
    (c : List Book) (ub : List LibEntry) (n : ℕ) (r : CsvRow) :
    ∃ c2 ub2 n2 wrote,
      processRowAt fetch embed c c ub n r = .ok (c2, ub2, n2, wrote) := by
  unfold processRowAt
  by_cases hid : rowIdentifier r = ""
  · rw [if_pos hid]
    exact ⟨c, ub, n, false, rfl⟩
  · rw [if_neg hid]
    cases hlook : lookupByIsbn c (rowIdentifier r) with
    | some b => exact ⟨c, ub ++ [mkEntry b r], n, false, rfl⟩
    | none =>
      cases hfetch : fetch (rowIdentifier r) with
      | none => exact ⟨c, ub, n, false, rfl⟩
      | some g =>
        have hany := lookupByIsbn_none_any_false hlook
        have hins : insertBook c (mkBook c (rowIdentifier r) g)
            = .ok (c ++ [mkBook c (rowIdentifier r) g]) := by
          unfold insertBook
          dsimp only [mkBook]
          rw [hany]
          rfl
        dsimp only
        rw [hins]
        exact ⟨_, _, _, _, rfl⟩

/-- Shift a run by a constant offset `dt` on the reported total and `di` on
the starting row index: the resulting corpus, library and counter are
unchanged, and every progress write has its total shifted by `dt` and its
processed count by `di`. -/
lemma runRows_shift (fetch : String → Option BookMeta) (embed : String → ℕ)
    (dt di : ℕ) :
    ∀ (l : List CsvRow) (c : List Book) (ub : List LibEntry) (n : ℕ)
      (log log2 : List ProgressWrite) (idx total : ℕ),
    ∃ (c2 : List Book) (ub2 : List LibEntry) (n2 : ℕ) (L : List ProgressWrite),
      runRows fetch embed total
          { corpus := c, userBooks := ub, newAdded := n, progressLog := log } idx l
        = .ok { corpus := c2, userBooks := ub2, newAdded := n2, progressLog := log ++ L } ∧
      runRows fetch embed (total + dt)
          { corpus := c, userBooks := ub, newAdded := n, progressLog := log2 } (idx + di) l
        = .ok { corpus := c2, userBooks := ub2, newAdded := n2,
                progressLog := log2 ++ L.map (fun w => (w.1 + dt, w.2.1 + di, w.2.2)) } := by
  intro l
  induction l with
  | nil =>
    intro c ub n log log2 idx total
    refine ⟨c, ub, n, [], ?_, ?_⟩ <;> simp [runRows]
  | cons r rest ih =>
    intro c ub n log log2 idx total
    obtain ⟨c1, ub1, n1, wrote, hstep⟩ := processRowAt_same_ok fetch embed c ub n r
    obtain ⟨c2, ub2, n2, L, h1, h2⟩ := ih c1 ub1 n1
      (log ++ if wrote then [((total, idx + 1, n1) : ProgressWrite)] else [])
      (log2 ++ if wrote then [((total + dt, idx + di + 1, n1) : ProgressWrite)] else [])
      (idx + 1) total
    refine ⟨c2, ub2, n2,
      (if wrote then [((total, idx + 1, n1) : ProgressWrite)] else []) ++ L, ?_, ?_⟩
    · conv_lhs => rw [runRows]
      rw [hstep]
      rw [List.append_assoc] at h1
      exact h1
    · conv_lhs => rw [runRows]
      rw [hstep]
      have heq2 : idx + 1 + di = idx + di + 1 := by omega
      rw [heq2] at h2
      have hmap : ((if wrote then [((total, idx + 1, n1) : ProgressWrite)] else []) ++ L).map
            (fun w => (w.1 + dt, w.2.1 + di, w.2.2))
          = (if wrote then [((total + dt, idx + di + 1, n1) : ProgressWrite)] else [])
            ++ L.map (fun w => (w.1 + dt, w.2.1 + di, w.2.2)) := by
        cases wrote
        · simp
        · simp [Prod.ext_iff]
          omega
      rw [hmap, ← List.append_assoc]
      exact h2

lemma runRows_append (fetch : String → Option BookMeta) (embed : String → ℕ)
    (total : ℕ) :
    ∀ (a : List CsvRow) (s : TaskState) (idx : ℕ) (b : List CsvRow),
    runRows fetch embed total s idx (a ++ b)
      = match runRows fetch embed total s idx a with
        | .error e => .error e
        | .ok s2 => runRows fetch embed total s2 (idx + a.length) b := by
  intro a
  induction a with
  | nil =>
    intro s idx b
    simp [runRows]
  | cons r rest ih =>
    intro s idx b
    rw [List.cons_append, runRows]
    conv_rhs => rw [runRows]
    cases hstep : processRowAt fetch embed s.corpus s.corpus s.userBooks s.newAdded r with
    | error e => rfl
    | ok t =>
      obtain ⟨c1, ub1, n1, wrote⟩ := t
      dsimp only
      rw [ih]
      have harith : idx + 1 + rest.length = idx + (r :: rest).length := by
        simp
        omega
      rw [harith]

lemma runRows_skip_row (fetch : String → Option BookMeta) (embed : String → ℕ)
    (total : ℕ) (s : TaskState) (idx : ℕ) (r : CsvRow) (rest : List CsvRow)
    (hr : rowIdentifier r = "") :
    runRows fetch embed total s idx (r :: rest)
      = runRows fetch embed total s (idx + 1) rest := by
  have hstep : processRowAt fetch embed s.corpus s.corpus s.userBooks s.newAdded r
      = .ok (s.corpus, s.userBooks, s.newAdded, false) := by
    unfold processRowAt
    rw [if_pos hr]
  conv_lhs => rw [runRows]
  rw [hstep]
  simp

/-- C8: a row without an identifier is skipped — comparing the run on an
export with such a row inserted against the run without it: the resulting
corpus, library entries and newly-added counter are identical (no entry, no
insert), while every progress write performed after the skipped row reports
a processed count exactly one higher (the row still counts as processed, the
counter being `idx + 1`) and an unchanged newly-added count; writes before it
differ only in the total row count. -/
theorem c8_skipped_row_counting (fetch : String → Option BookMeta)
    (embed : String → ℕ) (corpus : List Book) (l1 l2 : List CsvRow)
    (r : CsvRow) (hr : rowIdentifier r = "") :
    ∃ (c2 : List Book) (ub2 : List LibEntry) (n2 : ℕ)
      (L1 L2 : List ProgressWrite),
      processCsvTask fetch embed corpus (l1 ++ l2)
        = .ok { corpus := c2, userBooks := ub2, newAdded := n2,
                progressLog := L1 ++ L2 } ∧
      processCsvTask fetch embed corpus (l1 ++ r :: l2)
        = .ok { corpus := c2, userBooks := ub2, newAdded := n2,
                progressLog := L1.map (fun w => (w.1 + 1, w.2.1, w.2.2))
                  ++ L2.map (fun w => (w.1 + 1, w.2.1 + 1, w.2.2)) } := by
  obtain ⟨c1, ub1, n1, L1, hA1, hB1⟩ :=
    runRows_shift fetch embed 1 0 l1 corpus [] 0 [] [] 0 (l1 ++ l2).length
  obtain ⟨c2, ub2, n2, L2, hA2, hB2⟩ :=
    runRows_shift fetch embed 1 1 l2 c1 ub1 n1
      ([] ++ L1) ([] ++ L1.map (fun w => (w.1 + 1, w.2.1 + 0, w.2.2)))
      l1.length (l1 ++ l2).length
  have hmap0 : L1.map (fun w => (w.1 + 1, w.2.1 + 0, w.2.2))
      = L1.map (fun w => (w.1 + 1, w.2.1, w.2.2)) := by
    apply List.map_congr_left
    intro w _
    rfl
  refine ⟨c2, ub2, n2, L1, L2, ?_, ?_⟩
  · unfold processCsvTask
    rw [runRows_append, hA1]
    dsimp only
    rw [Nat.zero_add]
    rw [hA2]
    simp
  · unfold processCsvTask
    have hlen : (l1 ++ r :: l2).length = (l1 ++ l2).length + 1 := by
      simp
      omega
    rw [hlen]
    rw [runRows_append]
    rw [Nat.add_zero] at hB1
    rw [hB1]
    dsimp only
    rw [Nat.zero_add]
    rw [runRows_skip_row fetch embed _ _ _ _ _ hr]
    rw [hB2]
    rw [hmap0]
    simp

/-- C8 witness: the skipped-row statement applied to a concrete run with one
matched row, one identifier-less row and one newly-added row. -/
theorem c8_witness :
    ∃ (c2 : List Book) (ub2 : List LibEntry) (n2 : ℕ)
      (L1 L2 : List ProgressWrite),
      processCsvTask (fun _ => some lbMeta) (fun _ => 0) [lbBook]
          ([lbRow] ++ [{ isbn := "X", isbn13 := "", myRating := 4 }])
        = .ok { corpus := c2, userBooks := ub2, newAdded := n2,
                progressLog := L1 ++ L2 } ∧
      processCsvTask (fun _ => some lbMeta) (fun _ => 0) [lbBook]
          ([lbRow] ++ { isbn := "", isbn13 := "", myRating := 0 }
              :: [{ isbn := "X", isbn13 := "", myRating := 4 }])
        = .ok { corpus := c2, userBooks := ub2, newAdded := n2,
                progressLog := L1.map (fun w => (w.1 + 1, w.2.1, w.2.2))
                  ++ L2.map (fun w => (w.1 + 1, w.2.1 + 1, w.2.2)) } :=
  c8_skipped_row_counting (fun _ => some lbMeta) (fun _ => 0) [lbBook]
    [lbRow] [{ isbn := "X", isbn13 := "", myRating := 4 }]
    { isbn := "", isbn13 := "", myRating := 0 } (by rfl)

/-! ## C2 — bounded candidate list excluding the library -/

lemma searchSimilarBooks_mem {corpus : List Book} {qsim : ℕ → ℚ} {limit : ℕ}
    {excl : List ℕ} {c : Candidate}
    (h : c ∈ searchSimilarBooks corpus qsim limit excl) :
    c.book ∈ corpus ∧ c.book.embedding.isSome = true ∧ c.book.id ∉ excl := by
  unfold searchSimilarBooks at h
  have h2 : c ∈ sortBySimDesc ((corpus.filter
      (fun b => b.embedding.isSome && !(decide (b.id ∈ excl)))).map
        (fun b => { book := b, similarity := (b.embedding.map qsim).getD 0,
                    qualityScore := none, penaltyApplied := false })) :=
    (List.take_sublist _ _).subset h
  unfold sortBySimDesc at h2
  rw [List.mem_mergeSort] at h2
  obtain ⟨b, hb, rfl⟩ := List.mem_map.mp h2
  rw [List.mem_filter] at hb
  obtain ⟨hbc, hp⟩ := hb
  rw [Bool.and_eq_true] at hp
  refine ⟨hbc, hp.1, ?_⟩
  have := hp.2
  rw [Bool.not_eq_true'] at this
  exact of_decide_eq_false this

lemma searchSimilarToBooks_mem {corpus : List Book} {ssim : List ℕ → ℕ → ℚ}
    {bookIds : List ℕ} {limit : ℕ} {excl : List ℕ} {c : Candidate}
    (h : c ∈ searchSimilarToBooks corpus ssim bookIds limit excl) :
    c.book ∈ corpus ∧ c.book.embedding.isSome = true ∧ c.book.id ∉ excl := by
  unfold searchSimilarToBooks at h
  have h2 : c ∈ sortBySimDesc ((corpus.filter
      (fun b => b.embedding.isSome && !(decide (b.id ∈ excl)))).map
        (fun b => { book := b, similarity := (b.embedding.map (ssim bookIds)).getD 0,
                    qualityScore := none, penaltyApplied := false })) :=
    (List.take_sublist _ _).subset h
  unfold sortBySimDesc at h2
  rw [List.mem_mergeSort] at h2
  obtain ⟨b, hb, rfl⟩ := List.mem_map.mp h2
  rw [List.mem_filter] at hb
  obtain ⟨hbc, hp⟩ := hb
  rw [Bool.and_eq_true] at hp
  refine ⟨hbc, hp.1, ?_⟩
  have := hp.2
  rw [Bool.not_eq_true'] at this
  exact of_decide_eq_false this

lemma applyQualityScoring_book {cands : List Candidate} {c2 : Candidate}
    (h : c2 ∈ applyQualityScoring cands) : ∃ c ∈ cands, c2.book = c.book := by
  unfold applyQualityScoring sortBySimDesc at h
  rw [List.mem_mergeSort] at h
  obtain ⟨c, hc, rfl⟩ := List.mem_map.mp h
  exact ⟨c, hc, rfl⟩

lemma dislikeStep_book (esim : ℕ → ℕ → ℚ) (dd : List Book) (c : Candidate) :
    (dislikeStep esim dd c).book = c.book := by
  unfold dislikeStep
  cases c.book.embedding with
  | none => rfl
  | some ce =>
    dsimp only
    split <;> rfl

lemma applyDislikePenalty_book {corpus : List Book} {esim : ℕ → ℕ → ℚ}
    {dl : List LibEntry} {cands : List Candidate} {c2 : Candidate}
    (h : c2 ∈ applyDislikePenalty corpus esim dl cands) :
    ∃ c ∈ cands, c2.book = c.book := by
  unfold applyDislikePenalty sortBySimDesc at h
  rw [List.mem_mergeSort] at h
  obtain ⟨c, hc, rfl⟩ := List.mem_map.mp h
  exact ⟨c, hc, dislikeStep_book _ _ c⟩

lemma retrieveCandidates_mem_book {corpus : List Book} {qsim : ℕ → ℚ}
    {ssim : List ℕ → ℕ → ℚ} {esim : ℕ → ℕ → ℚ} {ub : List LibEntry}
    {topK : ℕ} {c2 : Candidate}
    (h : c2 ∈ retrieveCandidates corpus qsim ssim esim ub topK) :
    c2.book.id ∉ libraryIds ub := by
  unfold retrieveCandidates at h
  have h1 := (List.take_sublist _ _).subset h
  have h2 : ∃ c ∈ retrieveUserSimilar corpus qsim ssim ub topK
      ++ retrieveQuerySimilar corpus qsim ssim ub topK, c2.book = c.book := by
    by_cases hd : ¬ ub.isEmpty ∧ dislikeMinDislikes ≤ (strongDislikes ub).length
    · rw [if_pos hd] at h1
      obtain ⟨c1, hc1, hb1⟩ := applyDislikePenalty_book h1
      obtain ⟨c0, hc0, hb0⟩ := applyQualityScoring_book hc1
      exact ⟨c0, hc0, hb1.trans hb0⟩
    · rw [if_neg hd] at h1
      obtain ⟨c0, hc0, hb0⟩ := applyQualityScoring_book h1
      exact ⟨c0, hc0, hb0⟩
  obtain ⟨c0, hc0, hb⟩ := h2
  rw [hb]
  rcases List.mem_append.mp hc0 with hu | hq
  · unfold retrieveUserSimilar at hu
    by_cases hw : 0 < (collaborativeSeedWeight corpus qsim ub).2
    · rw [if_pos hw] at hu
      exact (searchSimilarToBooks_mem hu).2.2
    · rw [if_neg hw] at hu
      exact absurd hu (List.not_mem_nil c0)
  · have := (searchSimilarBooks_mem hq).2.2
    unfold retrieveExclude at this
    intro hmem
    exact this (List.mem_append.mpr (Or.inl hmem))

/-- C2: the candidate list handed to the final selection stage has length at
most `top_k`, and no candidate's book id appears among the user's library
entries (checked here with a boolean `all` over the returned list). -/
theorem c2_candidates_bounded_and_library_free (corpus : List Book)
    (qsim : ℕ → ℚ) (ssim : List ℕ → ℕ → ℚ) (esim : ℕ → ℕ → ℚ)
    (ub : List LibEntry) (topK : ℕ) :
    (retrieveCandidates corpus qsim ssim esim ub topK).length ≤ topK ∧
    (retrieveCandidates corpus qsim ssim esim ub topK).all
      (fun c => !((libraryIds ub).contains c.book.id)) = true := by
  constructor
  · unfold retrieveCandidates
    rw [List.length_take]
    exact min_le_left _ _
  · rw [List.all_eq_true]
    intro c hc
    have := retrieveCandidates_mem_book hc
    rw [Bool.not_eq_true']
    rw [← Bool.not_eq_true]
    intro hcontains
    exact this (List.mem_of_elem_eq_true hcontains)

/-! ## C5 — collaborative count and backfill -/

lemma searchSimilarBooks_length (corpus : List Book) (qsim : ℕ → ℚ)
    (limit : ℕ) (excl : List ℕ) :
    (searchSimilarBooks corpus qsim limit excl).length
      = min limit (corpus.filter
          (fun b => b.embedding.isSome && !(decide (b.id ∈ excl)))).length := by
  unfold searchSimilarBooks sortBySimDesc
  rw [List.length_take, List.length_mergeSort, List.length_map]

lemma searchSimilarToBooks_length (corpus : List Book) (ssim : List ℕ → ℕ → ℚ)
    (bookIds : List ℕ) (limit : ℕ) (excl : List ℕ) :
    (searchSimilarToBooks corpus ssim bookIds limit excl).length
      = min limit (corpus.filter
          (fun b => b.embedding.isSome && !(decide (b.id ∈ excl)))).length := by
  unfold searchSimilarToBooks sortBySimDesc
  rw [List.length_take, List.length_mergeSort, List.length_map]

lemma applyQualityScoring_length (cands : List Candidate) :
    (applyQualityScoring cands).length = cands.length := by
  unfold applyQualityScoring sortBySimDesc
  rw [List.length_mergeSort, List.length_map]

lemma applyDislikePenalty_length (corpus : List Book) (esim : ℕ → ℕ → ℚ)
    (dl : List LibEntry) (cands : List Candidate) :
    (applyDislikePenalty corpus esim dl cands).length = cands.length := by
  unfold applyDislikePenalty sortBySimDesc
  rw [List.length_mergeSort, List.length_map]

lemma weightRelevantTier_le_half (n : ℕ) : weightRelevantTier n ≤ 1/2 := by
  unfold weightRelevantTier
  exact le_trans (min_le_left _ _) (by norm_num)

lemma weightFavoritesTier_le_half (n : ℕ) : weightFavoritesTier n ≤ 1/2 := by
  unfold weightFavoritesTier
  exact le_trans (min_le_left _ _) (by norm_num)

lemma weightAllBooksTier_le_half (n : ℕ) : weightAllBooksTier n ≤ 1/2 := by
  unfold weightAllBooksTier
  exact le_trans (min_le_left _ _) (by norm_num)

lemma collaborativeWeight_le_half (corpus : List Book) (qsim : ℕ → ℚ)
    (ub : List LibEntry) : collaborativeWeight corpus qsim ub ≤ 1/2 := by
  unfold collaborativeWeight collaborativeSeedWeight
  split
  · norm_num
  · dsimp only
    split
    · exact weightAllBooksTier_le_half _
    · split
      · exact weightRelevantTier_le_half _
      · exact weightFavoritesTier_le_half _

lemma pyInt_le_topK (topK : ℕ) {w : ℚ} (hw : w ≤ 1/2) :
    pyInt ((topK : ℚ) * w) ≤ topK := by
  unfold pyInt
  rw [Int.toNat_le]
  calc ⌊(topK : ℚ) * w⌋ ≤ ⌊(topK : ℚ)⌋ := by
        apply Int.floor_le_floor
        nlinarith [Nat.cast_nonneg (α := ℚ) topK]
    _ = (topK : ℤ) := Int.floor_natCast topK

/-- In a list of books with pairwise distinct ids, at most `S.length` books
have their id in `S`. -/
lemma filter_id_mem_le (l : List Book) (S : List ℕ)
    (hN : (l.map (fun b => b.id)).Nodup) :
    (l.filter (fun b => decide (b.id ∈ S))).length ≤ S.length := by
  have hsub : (l.filter (fun b => decide (b.id ∈ S))).map (fun b => b.id) ⊆ S := by
    intro x hx
    obtain ⟨b, hb, rfl⟩ := List.mem_map.mp hx
    exact of_decide_eq_true (List.mem_filter.mp hb).2
  have hnd : ((l.filter (fun b => decide (b.id ∈ S))).map (fun b => b.id)).Nodup := by
    have hsl : (l.filter (fun b => decide (b.id ∈ S))).Sublist l :=
      List.filter_sublist l
    exact (hsl.map (fun b => b.id)).nodup hN
  have := (hnd.subperm hsub).length_le
  rw [List.length_map] at this
  exact this

lemma filter_append_excl_ge (corpus : List Book) (lib S : List ℕ)
    (hN : (corpus.map (fun b => b.id)).Nodup) :
    (corpus.filter (fun b => b.embedding.isSome && !(decide (b.id ∈ lib)))).length
        - S.length
      ≤ (corpus.filter
          (fun b => b.embedding.isSome && !(decide (b.id ∈ lib ++ S)))).length := by
  have hpred : ∀ b : Book,
      (b.embedding.isSome && !(decide (b.id ∈ lib ++ S)))
        = ((decide (b.id ∈ S) = false) && (b.embedding.isSome && !(decide (b.id ∈ lib)))) := by
    intro b
    by_cases h1 : b.id ∈ lib <;> by_cases h2 : b.id ∈ S <;>
      simp [h1, h2, List.mem_append]
  rw [List.filter_congr (fun b _ => hpred b)]
  conv_rhs => rw [← List.filter_filter]
  set E := corpus.filter (fun b => b.embedding.isSome && !(decide (b.id ∈ lib))) with hE
  have hEnod : (E.map (fun b => b.id)).Nodup := by
    have hsl : E.Sublist corpus := List.filter_sublist corpus
    exact (hsl.map (fun b => b.id)).nodup hN
  have hperm := List.filter_append_perm
    (fun b : Book => decide (decide (b.id ∈ S) = false)) E
  have hlen := hperm.length_eq
  rw [List.length_append] at hlen
  have hmemS : (E.filter
      (fun b => !(decide (decide (b.id ∈ S) = false)))).length ≤ S.length := by
    have heq : (fun b : Book => !(decide (decide (b.id ∈ S) = false)))
        = (fun b : Book => decide (b.id ∈ S)) := by
      funext b
      by_cases h : b.id ∈ S <;> simp [h]
    rw [heq]
    exact filter_id_mem_le E S hEnod
  omega

/-- C5 (amended): when the collaborative weight `w` is positive, the engine
requests `int(top_k * w)` (truncation, not rounding) additional candidates by
vector similarity to the collaborative seed set, deduplicated against the
exclusion list; given pairwise-distinct corpus ids and at least `2 * top_k`
eligible non-library books, exactly `int(top_k * w)` collaborative candidates
are retrieved and query-based retrieval backfills the remainder, so the
total candidate count is exactly `top_k`. -/
theorem c5_truncated_collaborative_count_and_backfill (corpus : List Book)
    (qsim : ℕ → ℚ) (ssim : List ℕ → ℕ → ℚ) (esim : ℕ → ℕ → ℚ)
    (ub : List LibEntry) (topK : ℕ)
    (hpos : 0 < collaborativeWeight corpus qsim ub)
    (hN : (corpus.map (fun b => b.id)).Nodup)
    (hbig : 2 * topK ≤ (corpus.filter
        (fun b => b.embedding.isSome && !(decide (b.id ∈ libraryIds ub)))).length) :
    (retrieveUserSimilar corpus qsim ssim ub topK).length
        = pyInt ((topK : ℚ) * collaborativeWeight corpus qsim ub) ∧
    (retrieveCandidates corpus qsim ssim esim ub topK).length = topK := by
  have hhalf := collaborativeWeight_le_half corpus qsim ub
  have hlim : pyInt ((topK : ℚ) * collaborativeWeight corpus qsim ub) ≤ topK :=
    pyInt_le_topK topK hhalf
  have hUS : retrieveUserSimilar corpus qsim ssim ub topK
      = searchSimilarToBooks corpus ssim (collaborativeSeedWeight corpus qsim ub).1
          (pyInt ((topK : ℚ) * collaborativeWeight corpus qsim ub))
          (libraryIds ub) := by
    unfold retrieveUserSimilar collaborativeWeight
    dsimp only
    rw [if_pos (show 0 < (collaborativeSeedWeight corpus qsim ub).2 from hpos)]
  have hUSlen : (retrieveUserSimilar corpus qsim ssim ub topK).length
      = pyInt ((topK : ℚ) * collaborativeWeight corpus qsim ub) := by
    rw [hUS, searchSimilarToBooks_length]
    exact min_eq_left (le_trans hlim (by omega))
  refine ⟨hUSlen, ?_⟩
  have hQSlen : (retrieveQuerySimilar corpus qsim ssim ub topK).length
      = topK - (retrieveUserSimilar corpus qsim ssim ub topK).length := by
    unfold retrieveQuerySimilar retrieveExclude
    rw [searchSimilarBooks_length]
    apply min_eq_left
    have hge := filter_append_excl_ge corpus (libraryIds ub)
      ((retrieveUserSimilar corpus qsim ssim ub topK).map (fun c => c.book.id)) hN
    rw [List.length_map, hUSlen] at hge
    omega
  unfold retrieveCandidates
  rw [List.length_take]
  have hc0 : (retrieveUserSimilar corpus qsim ssim ub topK
      ++ retrieveQuerySimilar corpus qsim ssim ub topK).length = topK := by
    rw [List.length_append, hQSlen, hUSlen]
    omega
  have hc1 : (applyQualityScoring (retrieveUserSimilar corpus qsim ssim ub topK
      ++ retrieveQuerySimilar corpus qsim ssim ub topK)).length = topK := by
    rw [applyQualityScoring_length]
    exact hc0
  split
  · rw [applyDislikePenalty_length, hc1]
    omega
  · rw [hc1]
    omega

/-- A 5-book corpus with populated embeddings for the C5 scenario. -/
def c5Corpus : List Book :=
  (List.range 5).map (fun i =>
    { id := i + 1, isbn := toString (i + 1), isbn13 := none, title := "t",
      author := "a", description := none, categories := [], page_count := none,
      publisher := none, ratings_count := none, embedding := some (i + 1) })

/-- A three-entry library, all rated 3 stars, for the C5 scenario (fallback
tier "all library entries", weight `min(0.2, 0.1 + (3 - 1) * 0.02) = 0.14`). -/
def c5UserBooks : List LibEntry :=
  [{ book_id := 101, title := "u", author := "a", user_rating := some 3 },
   { book_id := 102, title := "u", author := "a", user_rating := some 3 },
   { book_id := 103, title := "u", author := "a", user_rating := some 3 }]

lemma c5_seed_weight :
    collaborativeSeedWeight c5Corpus (fun _ => 0) c5UserBooks
      = ([101, 102, 103], weightAllBooksTier 3) := by
  unfold collaborativeSeedWeight
  rw [if_neg (by decide)]
  have hh : highlyRated c5UserBooks = [] := by decide
  dsimp only
  rw [hh]
  rfl

/-- C5 counterexample: with `top_k = 20` and three all-tier seed books the
weight is `0.14`; the code requests `int(20 * 0.14) = 2` collaborative
candidates (here 5 eligible books are available, so exactly 2 are
retrieved), whereas the claimed `round(K * w) = round(2.8) = 3`. -/
theorem c5_counterexample :
    (retrieveUserSimilar c5Corpus (fun _ => 0) (fun _ _ => 0) c5UserBooks 20).length = 2 ∧
    round ((20 : ℚ) * collaborativeWeight c5Corpus (fun _ => 0) c5UserBooks) = 3 := by
  have hw : collaborativeWeight c5Corpus (fun _ => 0) c5UserBooks = 0.14 := by
    unfold collaborativeWeight
    rw [c5_seed_weight]
    unfold weightAllBooksTier
    norm_num
  constructor
  · unfold retrieveUserSimilar
    dsimp only
    rw [c5_seed_weight]
    rw [if_pos (by unfold weightAllBooksTier; norm_num)]
    rw [searchSimilarToBooks_length]
    dsimp only
    have hpy : pyInt (((20 : ℕ) : ℚ) * weightAllBooksTier 3) = 2 := by
      unfold pyInt weightAllBooksTier
      have : (((20 : ℕ) : ℚ) * min 0.2 (0.1 + ((3 : ℕ) - 1 : ℚ) * 0.02)) = 2.8 := by
        norm_num
      rw [this]
      have hfl : ⌊(2.8 : ℚ)⌋ = 2 := by norm_num
      rw [hfl]
      rfl
    rw [hpy]
    have hlen : (c5Corpus.filter
        (fun b => b.embedding.isSome
          && !(decide (b.id ∈ libraryIds c5UserBooks)))).length = 5 := by
      decide
    rw [hlen]
    rfl
  · rw [hw]
    have : ((20 : ℚ) * 0.14) = 2.8 := by norm_num
    rw [this]
    rw [round_eq]
    norm_num

/-- C5 witness: the amended statement at `top_k = 1` over the concrete corpus
and library. -/
theorem c5_witness :
    (retrieveUserSimilar c5Corpus (fun _ => 0) (fun _ _ => 0) c5UserBooks 1).length
        = pyInt (((1 : ℕ) : ℚ) * collaborativeWeight c5Corpus (fun _ => 0) c5UserBooks) ∧
    (retrieveCandidates c5Corpus (fun _ => 0) (fun _ _ => 0) (fun _ _ => 0)
        c5UserBooks 1).length = 1 :=
  c5_truncated_collaborative_count_and_backfill c5Corpus (fun _ => 0) (fun _ _ => 0)
    (fun _ _ => 0) c5UserBooks 1
    (by
      unfold collaborativeWeight
      rw [c5_seed_weight]
      unfold weightAllBooksTier
      norm_num)
    (by decide)
    (by decide)
